import Mathlib

/-!
Verification of the reservation admission logic of the gpae-launch booking API.

The repository is a sequence of near-duplicate Express revisions.  Each handler
below is a shallow embedding of one revision's route handler, translated
directly from the JavaScript source:

* `post004Reservations`   — POST /reservations of the most advanced revision
  (src/unnamed/part_004: availability schedule, instructor resolution,
  conflict and duplicate-student checks);
* `post000Reservations`   — POST /reservations of the auto-assignment revision
  (src/unnamed/part_000, third revision: `getAvailableMoniteurs`);
* `post002Reservations`   — POST /reservations of src/unnamed/part_002
  (slot-format validation only);
* `post001Reservations`   — POST /reservations of src/unnamed/part_001
  (no validation beyond the schema's required slot);
* `deleteReservationServer` / `deleteReservation001` — DELETE /reservations/:id
  of src/server.js (first revision) and of src/unnamed/part_001;
* `deleteUser000`         — DELETE /users/:id of src/unnamed/part_000
  (detaches a moniteur from their reservations);
* `deleteMoniteurServer`  — DELETE /moniteurs/:id of src/server.js
  (first revision: refuses deletion while reservations reference the moniteur);
* `loginHandler`          — POST /login (identical across revisions);
* `checkRateLimit` / `adminSendEmail` — the in-memory email rate limiter and
  POST /admin/send-email of src/unnamed/part_004.

JavaScript `Date` values are modelled as `Int` milliseconds since the Unix
epoch.  `new Date(s)` followed by the `isNaN(getTime())` check is modelled by
an explicit parameter `parse : String → Option Int`, since the JS date parser
is a host builtin, not code of this repository.  `Date.prototype.toISOString`
is implemented concretely (`jsISO`), as is the Europe/Paris wall-clock
derivation used by `extraireJourEtHeure` (EU daylight-saving rule: UTC+2
between 01:00 UTC on the last Sunday of March and 01:00 UTC on the last
Sunday of October, UTC+1 otherwise).

JS falsiness of absent string fields is modelled by the empty string; optional
ObjectId references are modelled as `Option Nat`.
-/

/-! ## Calendar arithmetic (models of the JS Date builtins used by the code) -/

/-- Days from the civil epoch 1970-01-01 for a Gregorian date (Hinnant's
`days_from_civil` algorithm, with floor division). -/
def daysFromCivil (y m d : Int) : Int :=
  let y2 := if m ≤ 2 then y - 1 else y
  let era := Int.fdiv y2 400
  let yoe := y2 - era * 400
  let mp := if m > 2 then m - 3 else m + 9
  let doy := Int.fdiv (153 * mp + 2) 5 + d - 1
  let doe := yoe * 365 + Int.fdiv yoe 4 - Int.fdiv yoe 100 + doy
  era * 146097 + doe - 719468

/-- Gregorian date (year, month, day) of a day count since 1970-01-01
(Hinnant's `civil_from_days` algorithm). -/
def civilFromDays (z0 : Int) : Int × Int × Int :=
  let z := z0 + 719468
  let era := Int.fdiv z 146097
  let doe := z - era * 146097
  let yoe := Int.fdiv (doe - Int.fdiv doe 1460 + Int.fdiv doe 36524 - Int.fdiv doe 146096) 365
  let y := yoe + era * 400
  let doy := doe - (365 * yoe + Int.fdiv yoe 4 - Int.fdiv yoe 100)
  let mp := Int.fdiv (5 * doy + 2) 153
  let d := doy - Int.fdiv (153 * mp + 2) 5 + 1
  let m := if mp < 10 then mp + 3 else mp - 9
  (if m ≤ 2 then y + 1 else y, m, d)

/-- Left-pad a number with zeros to the given width. -/
def padZero (n : Nat) (width : Nat) : String :=
  let s := toString n
  if s.length < width then String.mk (List.replicate (width - s.length) '0' ++ s.data)
  else s

/-- Model of `Date.prototype.toISOString` on a millisecond timestamp
(for common-era timestamps, which is all the code stores). -/
def jsISO (t : Int) : String :=
  let days := Int.fdiv t 86400000
  let msOfDay := (t - days * 86400000).toNat
  let ymd := civilFromDays days
  let hh := msOfDay / 3600000
  let mi := msOfDay % 3600000 / 60000
  let ss := msOfDay % 60000 / 1000
  let ms := msOfDay % 1000
  padZero ymd.1.toNat 4 ++ "-" ++ padZero ymd.2.1.toNat 2 ++ "-" ++ padZero ymd.2.2.toNat 2 ++
    "T" ++ padZero hh 2 ++ ":" ++ padZero mi 2 ++ ":" ++ padZero ss 2 ++ "." ++ padZero ms 3 ++ "Z"

/-- Weekday of a day count since 1970-01-01, JS `getDay` convention
(0 = Sunday, ..., 6 = Saturday); 1970-01-01 was a Thursday. -/
def weekdayOfDays (days : Int) : Int :=
  Int.emod (days + 4) 7

/-- Day of month of the last Sunday of the given month (used for the EU
daylight-saving boundaries). -/
def lastSundayDom (y month : Int) : Int :=
  31 - weekdayOfDays (daysFromCivil y month 31)

/-- Start of Europe/Paris summer time for a year: last Sunday of March,
01:00 UTC, in epoch milliseconds. -/
def dstStartMs (y : Int) : Int :=
  daysFromCivil y 3 (lastSundayDom y 3) * 86400000 + 3600000

/-- End of Europe/Paris summer time for a year: last Sunday of October,
01:00 UTC, in epoch milliseconds. -/
def dstEndMs (y : Int) : Int :=
  daysFromCivil y 10 (lastSundayDom y 10) * 86400000 + 3600000

/-- UTC offset of Europe/Paris, in milliseconds, at a given instant. -/
def parisOffsetMs (t : Int) : Int :=
  let y := (civilFromDays (Int.fdiv t 86400000)).1
  if dstStartMs y ≤ t ∧ t < dstEndMs y then 7200000 else 3600000

/-- French weekday name as produced by
`toLocaleDateString("fr-FR", \x7b weekday: "long" \x7d)`. -/
def frenchDay (w : Int) : String :=
  if w = 0 then "dimanche" else if w = 1 then "lundi" else if w = 2 then "mardi"
  else if w = 3 then "mercredi" else if w = 4 then "jeudi" else if w = 5 then "vendredi"
  else "samedi"

/-- Model of the `extraireJourEtHeure` helper of src/unnamed/part_004
(lines 157-170).  The JS helper converts the slot to Paris wall-clock time
via a `toLocaleString("en-US", \x7b timeZone: "Europe/Paris" \x7d)` round-trip
and then reads the weekday name (fr-FR, long) and the hour label
`getHours() + "h"`.  Here the Paris wall clock is computed directly from the
parsed millisecond timestamp. -/
def extraireJourEtHeure (t : Int) : String × String :=
  let wall := t + parisOffsetMs t
  let days := Int.fdiv wall 86400000
  let hour := (wall - days * 86400000).toNat / 3600000
  (frenchDay (weekdayOfDays days), toString hour ++ "h")

/-- Comparison definition, following the spec's words only: the same
weekday/hour derivation computed in UTC rather than in Europe/Paris.  Used to
show the code's derivation is the Paris one, not the UTC one. -/
def utcJourEtHeure (t : Int) : String × String :=
  let days := Int.fdiv t 86400000
  let hour := (t - days * 86400000).toNat / 3600000
  (frenchDay (weekdayOfDays days), toString hour ++ "h")

/-- Model of JS `String.prototype.toLowerCase`: per-character ASCII case
folding (`Char.toLower` lowers exactly the basic latin letters, which covers
the email addresses in play). -/
def jsToLowerCase (s : String) : String :=
  String.mk (s.data.map Char.toLower)

/-! ## Data model -/

/-- User document of src/unnamed/part_004 (with the `disponibilites`
weekday-to-hour-labels map). -/
structure User004 where
  id : Nat
  nom : String
  prenom : String
  email : String
  password : String
  role : String
  tel : String
  disponibilites : List (String × List String)
deriving DecidableEq

/-- User document of the revisions without an availability map
(src/server.js, src/unnamed/part_000). -/
structure LUser where
  id : Nat
  nom : String
  prenom : String
  email : String
  password : String
  role : String
  tel : String
deriving DecidableEq

/-- Reservation document as created by the POST /reservations handlers of
src/unnamed/part_000 (third revision) and src/unnamed/part_004
(status defaults to "demande_en_cours"). -/
structure Resa where
  slot : String
  nom : String
  prenom : String
  email : String
  tel : String
  moniteur : Option Nat
  status : String
deriving DecidableEq

/-- Reservation document with its store identity, for the DELETE handlers. -/
structure StoredResa where
  id : Nat
  slot : String
  nom : String
  prenom : String
  email : String
  tel : String
  moniteur : Option Nat
  status : String
deriving DecidableEq

/-- Moniteur document of the first src/server.js revision (separate
`moniteurs` collection). -/
structure MoniteurRec where
  id : Nat
  nom : String
  tag : String
  actif : Bool
deriving DecidableEq

/-- Reservation document of the first src/server.js revision, which references
the moniteur by id string (`moniteurId`). -/
structure TagResa where
  id : Nat
  slot : String
  email : String
  moniteurTag : String
  moniteurId : Option Nat
  status : String
deriving DecidableEq

/-- Body of a POST /reservations request.  An absent/empty `slot` is the empty
string (JS falsiness); an absent `moniteurId` is `none`. -/
structure ResaReq where
  slot : String
  nom : String
  prenom : String
  email : String
  tel : String
  moniteurId : Option Nat
deriving DecidableEq

/-! ## POST /reservations of src/unnamed/part_004 (lines 368-431) -/

/-- Outcome of the part_004 POST /reservations handler. -/
inductive Out004 where
  | missingFields
  | invalidSlot
  | instructorNotFound
  | notAMoniteur
  | outsideAvailability (jour : String) (heure : String)
  | slotAlreadyBooked
  | duplicateStudentBooking
  | created (r : Resa)
deriving DecidableEq

/-- HTTP status code attached to each outcome by the part_004 handler. -/
def statusOf004 : Out004 → Nat
  | .missingFields => 400
  | .invalidSlot => 400
  | .instructorNotFound => 404
  | .notAMoniteur => 400
  | .outsideAvailability _ _ => 400
  | .slotAlreadyBooked => 409
  | .duplicateStudentBooking => 409
  | .created _ => 201

/-- `Reservation.findOne(\x7b slot, moniteur: moniteurId \x7d)` is non-empty. -/
def conflictExists (rs : List Resa) (iso : String) (mid : Nat) : Bool :=
  rs.any fun r => r.slot == iso && r.moniteur == some mid

/-- `Reservation.findOne(\x7b slot, email, moniteur: moniteurId \x7d)` is
non-empty. -/
def studentDup (rs : List Resa) (iso : String) (email : String) (mid : Nat) : Bool :=
  rs.any fun r => r.slot == iso && r.email == email && r.moniteur == some mid

/-- Checks of the part_004 handler from instructor resolution onwards
(after the missing-field and slot-format checks). -/
def post004core (users : List User004) (rs : List Resa) (req : ResaReq)
    (mid : Nat) (t : Int) : Out004 × List Resa :=
  match users.find? (fun u => u.id == mid) with
  | none => (.instructorNotFound, rs)
  | some m =>
    if m.role ≠ "moniteur" then (.notAMoniteur, rs)
    else
      let jh := extraireJourEtHeure t
      let heures := (m.disponibilites.lookup jh.1).getD []
      if heures.contains jh.2 = false then (.outsideAvailability jh.1 jh.2, rs)
      else
        let iso := jsISO t
        if conflictExists rs iso mid then (.slotAlreadyBooked, rs)
        else if studentDup rs iso req.email mid then (.duplicateStudentBooking, rs)
        else
          let r : Resa := ⟨iso, req.nom, req.prenom, req.email, req.tel, some mid,
            "demande_en_cours"⟩
          (.created r, rs ++ [r])

/-- POST /reservations of src/unnamed/part_004 (lines 368-431): missing-field
check, slot-format check, instructor resolution, role check, availability
check in Paris local time, instructor double-booking check, duplicate-student
check, then persistence. -/
def post004Reservations (parse : String → Option Int) (users : List User004)
    (rs : List Resa) (req : ResaReq) : Out004 × List Resa :=
  if req.slot = "" ∨ req.moniteurId = none then (.missingFields, rs)
  else
    match parse req.slot, req.moniteurId with
    | none, _ => (.invalidSlot, rs)
    | some _, none => (.missingFields, rs)
    | some t, some mid => post004core users rs req mid t

/-! ## POST /reservations of src/unnamed/part_000, third revision
(lines 522-610): auto-assignment of a free moniteur -/

/-- Outcome of the part_000 (third revision) POST /reservations handler. -/
inductive Out000 where
  | missingSlot
  | invalidSlot
  | noInstructorAvailable
  | chosenNotAvailable
  | created (r : Resa)
deriving DecidableEq

/-- HTTP status code attached to each outcome by the part_000 handler. -/
def statusOf000 : Out000 → Nat
  | .missingSlot => 400
  | .invalidSlot => 400
  | .noInstructorAvailable => 409
  | .chosenNotAvailable => 409
  | .created _ => 201

/-- `getAvailableMoniteurs` of src/unnamed/part_000 (lines 522-527): all users
with role "moniteur" minus those referenced by a reservation stored at
exactly this ISO slot. -/
def getAvailableMoniteurs (users : List LUser) (rs : List Resa) (slotISO : String) :
    List LUser :=
  let reservedIds := (rs.filter fun r => r.slot == slotISO).filterMap fun r => r.moniteur
  (users.filter fun u => u.role == "moniteur").filter fun m => !(reservedIds.contains m.id)

/-- POST /reservations of src/unnamed/part_000, third revision
(lines 562-610): when no moniteur is chosen, the first free moniteur in store
order is assigned; when one is chosen, it must be among the free ones. -/
def post000Reservations (parse : String → Option Int) (users : List LUser)
    (rs : List Resa) (req : ResaReq) : Out000 × List Resa :=
  if req.slot = "" then (.missingSlot, rs)
  else
    match parse req.slot with
    | none => (.invalidSlot, rs)
    | some t =>
      let iso := jsISO t
      let avail := getAvailableMoniteurs users rs iso
      match req.moniteurId with
      | none =>
        match avail with
        | [] => (.noInstructorAvailable, rs)
        | m :: _ =>
          let r : Resa := ⟨iso, req.nom, req.prenom, req.email, req.tel, some m.id,
            "demande_en_cours"⟩
          (.created r, rs ++ [r])
      | some mid =>
        if avail.any (fun m => m.id == mid) = false then (.chosenNotAvailable, rs)
        else
          let r : Resa := ⟨iso, req.nom, req.prenom, req.email, req.tel, some mid,
            "demande_en_cours"⟩
          (.created r, rs ++ [r])

/-! ## POST /reservations of src/unnamed/part_002 (lines 69-102) -/

/-- Reservation document of src/unnamed/part_002: the raw slot string is
stored unconverted, status defaults to "confirmée". -/
structure Resa002 where
  slot : String
  nom : String
  prenom : String
  email : String
  moniteur : Option Nat
  status : String
deriving DecidableEq

/-- Outcome of the part_002 POST /reservations handler. -/
inductive Out002 where
  | missingSlot
  | invalidDate
  | created (r : Resa002)
deriving DecidableEq

/-- POST /reservations of src/unnamed/part_002 (lines 69-102): the only
validation is that the slot field is present and parses as a date; the raw
string is stored. -/
def post002Reservations (parse : String → Option Int) (rs : List Resa002)
    (req : ResaReq) : Out002 × List Resa002 :=
  if req.slot = "" then (.missingSlot, rs)
  else
    match parse req.slot with
    | none => (.invalidDate, rs)
    | some _ =>
      let r : Resa002 := ⟨req.slot, req.nom, req.prenom, req.email, none, "confirmée"⟩
      (.created r, rs ++ [r])

/-! ## POST /reservations of src/unnamed/part_001 (lines 68-84) -/

/-- Reservation document of src/unnamed/part_001 (status defaults to
"confirmée"). -/
structure Resa001 where
  slot : String
  nom : String
  prenom : String
  email : String
  tel : String
  moniteur : Option Nat
  status : String
deriving DecidableEq

/-- Outcome of the part_001 POST /reservations handler.  `validationError`
models the 500 produced when the schema's `required: true` rejects a missing
or empty slot at save time; there is no other validation. -/
inductive Out001 where
  | validationError
  | created (r : Resa001)
deriving DecidableEq

/-- POST /reservations of src/unnamed/part_001 (lines 68-84): the handler
saves the request directly; the slot string is never parsed or checked. -/
def post001Reservations (rs : List Resa001) (req : ResaReq) : Out001 × List Resa001 :=
  if req.slot = "" then (.validationError, rs)
  else
    let r : Resa001 := ⟨req.slot, req.nom, req.prenom, req.email, req.tel, req.moniteurId,
      "confirmée"⟩
    (.created r, rs ++ [r])

/-! ## DELETE /reservations/:id -/

/-- Outcome of a DELETE /reservations/:id handler. -/
inductive DelOut where
  | notFound
  | deleted
deriving DecidableEq

/-- HTTP status code of a deletion outcome. -/
def statusOfDel : DelOut → Nat
  | .notFound => 404
  | .deleted => 200

/-- DELETE /reservations/:id of src/server.js, first revision (lines 346-381):
`findById`, 404 when absent, otherwise `deleteOne(\x7b _id: id \x7d)`. -/
def deleteReservationServer (rs : List StoredResa) (id : Nat) : DelOut × List StoredResa :=
  match rs.find? (fun r => r.id == id) with
  | none => (.notFound, rs)
  | some _ => (.deleted, rs.eraseP (fun r => r.id == id))

/-- DELETE /reservations/:id of src/unnamed/part_001 (lines 86-91):
`findByIdAndDelete` followed unconditionally by a 200 success response,
whether or not the id existed. -/
def deleteReservation001 (rs : List StoredResa) (id : Nat) : DelOut × List StoredResa :=
  (.deleted, rs.eraseP (fun r => r.id == id))

/-! ## DELETE /users/:id of src/unnamed/part_000 (lines 164-180) -/

/-- Outcome of the DELETE /users/:id handler. -/
inductive UserDelOut where
  | notFound
  | deleted
deriving DecidableEq

/-- DELETE /users/:id of src/unnamed/part_000 (lines 164-180): when the user
has role "moniteur", `updateMany(\x7b moniteur: id \x7d,
\x7b $set: \x7b moniteur: null \x7d \x7d)` detaches every reservation
referencing them, then the user is deleted. -/
def deleteUser000 (users : List LUser) (rs : List StoredResa) (uid : Nat) :
    UserDelOut × List LUser × List StoredResa :=
  match users.find? (fun u => u.id == uid) with
  | none => (.notFound, users, rs)
  | some u =>
    let rs' := if u.role = "moniteur" then
        rs.map fun r => if r.moniteur = some uid then { r with moniteur := none } else r
      else rs
    (.deleted, users.eraseP (fun x => x.id == uid), rs')

/-! ## DELETE /moniteurs/:id of src/server.js, first revision (lines 171-192) -/

/-- Outcome of the DELETE /moniteurs/:id handler. -/
inductive MonDelOut where
  | hasReservations
  | notFound
  | deleted
deriving DecidableEq

/-- DELETE /moniteurs/:id of src/server.js, first revision (lines 171-192):
`countDocuments(\x7b moniteurId: id \x7d)`; when positive the deletion is
refused with 400, otherwise the moniteur is deleted. -/
def deleteMoniteurServer (ms : List MoniteurRec) (rs : List TagResa) (mid : Nat) :
    MonDelOut × List MoniteurRec × List TagResa :=
  let activeReservations := (rs.filter fun r => r.moniteurId == some mid).length
  if activeReservations > 0 then (.hasReservations, ms, rs)
  else
    match ms.find? (fun m => m.id == mid) with
    | none => (.notFound, ms, rs)
    | some _ => (.deleted, ms.eraseP (fun m => m.id == mid), rs)

/-! ## POST /login (identical across revisions; src/server.js lines 84-104) -/

/-- Outcome of the POST /login handler; a success carries the JSON body as an
ordered list of key-value pairs. -/
inductive LoginOut where
  | missing
  | badCredentials
  | ok (body : List (String × String))
deriving DecidableEq

/-- POST /login (src/server.js lines 84-104, src/unnamed/part_000 lines
111-131, src/unnamed/part_004 lines 175-195): the submitted email is
lowercased, `findOne(\x7b email, password \x7d)` looks it up together with the
plaintext password, and the response body lists exactly email, nom, prenom,
role, tel.  JS `toLowerCase` is modelled by `jsToLowerCase`. -/
def loginHandler (users : List LUser) (email password : String) : LoginOut :=
  if email = "" ∨ password = "" then .missing
  else
    match users.find? (fun u => u.email == jsToLowerCase email && u.password == password) with
    | none => .badCredentials
    | some u => .ok [("email", u.email), ("nom", u.nom), ("prenom", u.prenom),
        ("role", u.role), ("tel", u.tel)]

/-! ## Email rate limiter and POST /admin/send-email of src/unnamed/part_004 -/

/-- One entry of the in-memory `emailRateLimits` map. -/
structure RateEntry where
  count : Nat
  resetTime : Int
deriving DecidableEq

/-- The in-memory `emailRateLimits` map (insertion-ordered, like a JS Map). -/
abbrev RLState := List (String × RateEntry)

/-- `RATE_WINDOW` of src/unnamed/part_004 (line 132): one hour in
milliseconds. -/
def RATE_WINDOW : Int := 3600000

/-- Result of one `checkRateLimit` call. -/
structure RateCheck where
  allowed : Bool
  remaining : Nat
  resetIn : Int
deriving DecidableEq

/-- `Map.prototype.set`: replace the entry in place, or append. -/
def setRL (st : RLState) (k : String) (v : RateEntry) : RLState :=
  match st with
  | [] => [(k, v)]
  | (k', v') :: rest => if k' = k then (k, v) :: rest else (k', v') :: setRL rest k v

/-- `checkRateLimit` of src/unnamed/part_004 (lines 134-152): no entry or an
expired window (`now > resetTime`) starts a fresh window of `RATE_WINDOW` with
count 1; below the limit of 50 the count is incremented; at the limit the call
is denied and reports the minutes until reset (`Math.ceil`). -/
def checkRateLimit (st : RLState) (adminEmail : String) (now : Int) : RateCheck × RLState :=
  match st.lookup adminEmail with
  | none => (⟨true, 49, 0⟩, setRL st adminEmail ⟨1, now + RATE_WINDOW⟩)
  | some l =>
    if now > l.resetTime then (⟨true, 49, 0⟩, setRL st adminEmail ⟨1, now + RATE_WINDOW⟩)
    else if l.count < 50 then
      (⟨true, 50 - (l.count + 1), 0⟩, setRL st adminEmail ⟨l.count + 1, l.resetTime⟩)
    else (⟨false, 0, Int.fdiv (l.resetTime - now + 59999) 60000⟩, st)

/-- Fold a sequence of send attempts by one admin through `checkRateLimit`,
counting how many are admitted. -/
def runRL (st : RLState) (a : String) : List Int → Nat × RLState
  | [] => (0, st)
  | t :: ts =>
    let c := checkRateLimit st a t
    let n := runRL c.2 a ts
    ((if c.1.allowed then 1 else 0) + n.1, n.2)

/-- One EmailLog document of src/unnamed/part_004 (lines 77-89). -/
structure EmailLogRec where
  sentBy : Nat
  sentByEmail : String
  recipientType : String
  recipientCount : Nat
  recipients : List String
  subject : String
  message : String
  status : String
deriving DecidableEq

/-- Body of a POST /admin/send-email request. -/
structure EmailReq where
  adminEmail : String
  recipient : String
  subject : String
  message : String
deriving DecidableEq

/-- Outcome of the POST /admin/send-email handler. -/
inductive SendOut where
  | adminRequired
  | adminForbidden
  | missingSubject
  | rateLimited
  | recipientNotFound
  | noRecipients
  | sent (count : Nat) (remaining : Nat)
deriving DecidableEq

/-- HTTP status code of a send outcome. -/
def statusOfSend : SendOut → Nat
  | .adminRequired => 401
  | .adminForbidden => 403
  | .missingSubject => 400
  | .rateLimited => 429
  | .recipientNotFound => 404
  | .noRecipients => 400
  | .sent _ _ => 200

/-- POST /admin/send-email of src/unnamed/part_004 (lines 527-631) together
with its `requireAdmin` middleware (lines 105-125).  Returns the outcome, the
list of recipient addresses actually sent to, the email log, and the rate
limiter state.  The mail transport is modelled as always succeeding (delivery
failures are an external concern); the isHTML personalisation only alters the
message text and is omitted. -/
def adminSendEmail (users : List User004) (logs : List EmailLogRec) (rl : RLState)
    (req : EmailReq) (now : Int) : SendOut × List String × List EmailLogRec × RLState :=
  if req.adminEmail = "" then (.adminRequired, [], logs, rl)
  else
    match users.find? (fun u => u.email == jsToLowerCase req.adminEmail) with
    | none => (.adminForbidden, [], logs, rl)
    | some admin =>
      if admin.role ≠ "admin" then (.adminForbidden, [], logs, rl)
      else if req.subject = "" ∨ req.message = "" then (.missingSubject, [], logs, rl)
      else
        let rc := checkRateLimit rl admin.email now
        if rc.1.allowed = false then (.rateLimited, [], logs, rc.2)
        else if req.recipient = "all" then
          let recipients := users.filter fun u => u.role == "eleve" && u.email != ""
          if recipients = [] then (.noRecipients, [], logs, rc.2)
          else
            (.sent recipients.length rc.1.remaining, recipients.map (fun u => u.email),
             logs ++ [⟨admin.id, admin.email, "all", recipients.length,
               recipients.map (fun u => u.email), req.subject, req.message, "success"⟩],
             rc.2)
        else
          match users.find? (fun u => u.email == req.recipient) with
          | none => (.recipientNotFound, [], logs, rc.2)
          | some u =>
            if u.email = "" then (.recipientNotFound, [], logs, rc.2)
            else
              (.sent 1 rc.1.remaining, [u.email],
               logs ++ [⟨admin.id, admin.email, "single", 1, [u.email], req.subject,
                 req.message, "success"⟩],
               rc.2)

/-! ## Concrete test stand-in for the JS date parser -/

/-- Concrete stand-in for the JS `Date` parser, defined on the slot strings
used by witnesses and counterexamples (millisecond timestamps of
2025-01-06T10:00Z and 2025-01-06T23:30Z), and returning `none` — an invalid
date — on everything else, in particular on "not-a-date". -/
def p0 : String → Option Int := fun s =>
  if s = "2025-01-06T10:00:00.000Z" then some 1736157600000
  else if s = "2025-01-06T23:30:00.000Z" then some 1736206200000
  else none

/-! ## Helper lemmas about the handlers -/

/-- The part_004 creation handler either leaves the store unchanged or appends
exactly the created reservation. -/
theorem post004_cases (parse : String → Option Int) (users : List User004)
    (rs : List Resa) (req : ResaReq) :
    (post004Reservations parse users rs req).2 = rs ∨
    ∃ r, post004Reservations parse users rs req = (Out004.created r, rs ++ [r]) := by
  unfold post004Reservations post004core
  split
  · left; rfl
  · split
    · left; rfl
    · left; rfl
    · split
      · left; rfl
      · split
        · left; rfl
        · dsimp only
          split
          · left; rfl
          · split
            · left; rfl
            · split
              · left; rfl
              · right; exact ⟨_, rfl⟩

/-- The part_000 creation handler either leaves the store unchanged or appends
exactly the created reservation. -/
theorem post000_cases (parse : String → Option Int) (users : List LUser)
    (rs : List Resa) (req : ResaReq) :
    (post000Reservations parse users rs req).2 = rs ∨
    ∃ r, post000Reservations parse users rs req = (Out000.created r, rs ++ [r]) := by
  unfold post000Reservations
  split
  · left; rfl
  · split
    · left; rfl
    · dsimp only
      split
      · split
        · left; rfl
        · right; exact ⟨_, rfl⟩
      · split
        · left; rfl
        · right; exact ⟨_, rfl⟩

/-- The part_002 creation handler either leaves the store unchanged or appends
exactly the created reservation. -/
theorem post002_cases (parse : String → Option Int) (rs : List Resa002) (req : ResaReq) :
    (post002Reservations parse rs req).2 = rs ∨
    ∃ r, post002Reservations parse rs req = (Out002.created r, rs ++ [r]) := by
  unfold post002Reservations
  split
  · left; rfl
  · split
    · left; rfl
    · right; exact ⟨_, rfl⟩

/-- Reduction of the part_004 handler once the request has passed the
missing-field check, the slot-format check, instructor resolution and the
role check. -/
theorem post004_reduce (parse : String → Option Int) (users : List User004)
    (rs : List Resa) (req : ResaReq) (t : Int) (mid : Nat) (m : User004)
    (hslot : req.slot ≠ "") (hmid : req.moniteurId = some mid)
    (hparse : parse req.slot = some t)
    (hfind : users.find? (fun u => u.id == mid) = some m)
    (hrole : m.role = "moniteur") :
    post004Reservations parse users rs req =
      if ((m.disponibilites.lookup (extraireJourEtHeure t).1).getD []).contains
          (extraireJourEtHeure t).2 = false then
        (Out004.outsideAvailability (extraireJourEtHeure t).1 (extraireJourEtHeure t).2, rs)
      else if conflictExists rs (jsISO t) mid then (Out004.slotAlreadyBooked, rs)
      else if studentDup rs (jsISO t) req.email mid then (Out004.duplicateStudentBooking, rs)
      else
        (Out004.created ⟨jsISO t, req.nom, req.prenom, req.email, req.tel, some mid,
          "demande_en_cours"⟩,
         rs ++ [⟨jsISO t, req.nom, req.prenom, req.email, req.tel, some mid,
           "demande_en_cours"⟩]) := by
  unfold post004Reservations post004core
  rw [if_neg (by simp [hslot, hmid]), hparse, hmid]
  dsimp only
  rw [hfind]
  dsimp only
  rw [if_neg (by simp [hrole])]

/-- Inversion of a successful run of the part_004 handler: every pipeline
check passed and the created reservation was appended. -/
theorem post004_created_inv (parse : String → Option Int) (users : List User004)
    (rs : List Resa) (req : ResaReq) (r : Resa) (rs' : List Resa)
    (h : post004Reservations parse users rs req = (Out004.created r, rs')) :
    req.slot ≠ "" ∧ ∃ t mid m, req.moniteurId = some mid ∧ parse req.slot = some t ∧
      users.find? (fun u => u.id == mid) = some m ∧ m.role = "moniteur" ∧
      ((m.disponibilites.lookup (extraireJourEtHeure t).1).getD []).contains
        (extraireJourEtHeure t).2 = true ∧
      conflictExists rs (jsISO t) mid = false ∧
      studentDup rs (jsISO t) req.email mid = false ∧
      r = ⟨jsISO t, req.nom, req.prenom, req.email, req.tel, some mid, "demande_en_cours"⟩ ∧
      rs' = rs ++ [r] := by
  unfold post004Reservations post004core at h
  split at h
  · simp at h
  · rename_i hguard
    push_neg at hguard
    split at h
    · simp at h
    · simp at h
    · rename_i t mid hparse hmid
      refine ⟨hguard.1, t, mid, ?_⟩
      split at h
      · simp at h
      · rename_i m hfind
        split at h
        · simp at h
        · rename_i hrole
          rw [not_not] at hrole
          dsimp only at h
          split at h
          · simp at h
          · rename_i havail
            split at h
            · simp at h
            · split at h
              · simp at h
              · rename_i hconf hdup
                simp only [Prod.mk.injEq, Out004.created.injEq] at h
                obtain ⟨hr, hrs⟩ := h
                refine ⟨m, hmid, hparse, hfind, hrole, ?_, ?_, ?_, hr.symm, ?_⟩
                · simpa using havail
                · simpa using hconf
                · simpa using hdup
                · rw [← hrs, hr]

/-- The part_004 handler rejects with `instructorNotFound` when the named
moniteur id resolves to no user. -/
theorem post004_notFound_case (parse : String → Option Int) (users : List User004)
    (rs : List Resa) (req : ResaReq) (t : Int) (mid : Nat)
    (hslot : req.slot ≠ "") (hmid : req.moniteurId = some mid)
    (hparse : parse req.slot = some t)
    (hfind : users.find? (fun u => u.id == mid) = none) :
    post004Reservations parse users rs req = (Out004.instructorNotFound, rs) := by
  unfold post004Reservations post004core
  rw [if_neg (by simp [hslot, hmid]), hparse, hmid]
  dsimp only
  rw [hfind]

/-- The part_004 handler rejects with `notAMoniteur` when the named id
resolves to a user whose role is not "moniteur". -/
theorem post004_notMoniteur_case (parse : String → Option Int) (users : List User004)
    (rs : List Resa) (req : ResaReq) (t : Int) (mid : Nat) (m : User004)
    (hslot : req.slot ≠ "") (hmid : req.moniteurId = some mid)
    (hparse : parse req.slot = some t)
    (hfind : users.find? (fun u => u.id == mid) = some m)
    (hrole : m.role ≠ "moniteur") :
    post004Reservations parse users rs req = (Out004.notAMoniteur, rs) := by
  unfold post004Reservations post004core
  rw [if_neg (by simp [hslot, hmid]), hparse, hmid]
  dsimp only
  rw [hfind]
  dsimp only
  rw [if_pos hrole]

/-- The checks of `post004core` can only produce outcomes from instructor
resolution onwards, never the format errors. -/
theorem post004core_ne_format (users : List User004) (rs : List Resa) (req : ResaReq)
    (mid : Nat) (t : Int) :
    (post004core users rs req mid t).1 ≠ Out004.invalidSlot ∧
    (post004core users rs req mid t).1 ≠ Out004.missingFields := by
  unfold post004core
  split
  · exact ⟨by simp, by simp⟩
  · split
    · exact ⟨by simp, by simp⟩
    · dsimp only
      split
      · exact ⟨by simp, by simp⟩
      · split
        · exact ⟨by simp, by simp⟩
        · split
          · exact ⟨by simp, by simp⟩
          · exact ⟨by simp, by simp⟩

/-- C2 (amended): in the validating revisions the handler rejects with the
invalid-slot error exactly when the slot field is present (nonempty) but does
not parse; an absent slot gives the missing-field 400 instead, and a
parseable slot is never rejected as invalid.  Stated for the part_002 handler
and for the part_004 handler. -/
theorem C2_invalid_slot_iff :
    (∀ (parse : String → Option Int) (rs : List Resa002) (req : ResaReq),
      (post002Reservations parse rs req).1 = Out002.invalidDate ↔
        req.slot ≠ "" ∧ parse req.slot = none) ∧
    (∀ (parse : String → Option Int) (users : List User004) (rs : List Resa) (req : ResaReq),
      (post004Reservations parse users rs req).1 = Out004.invalidSlot ↔
        req.slot ≠ "" ∧ req.moniteurId ≠ none ∧ parse req.slot = none) := by
  constructor
  · intro parse rs req
    unfold post002Reservations
    split
    · rename_i h
      simp [h]
    · rename_i h
      cases hp : parse req.slot
      · simp [h, hp]
      · simp [h, hp]
  · intro parse users rs req
    unfold post004Reservations
    split
    · rename_i h
      rcases h with h | h <;> simp [h]
    · rename_i h
      push_neg at h
      obtain ⟨hs, hm⟩ := h
      obtain ⟨mid, hmid⟩ := Option.ne_none_iff_exists'.mp hm
      cases hp : parse req.slot with
      | none =>
        rw [hmid]
        dsimp only
        simp [hs, hm]
      | some t =>
        rw [hmid]
        dsimp only
        have hne := (post004core_ne_format users rs req mid t).1
        simp [hne]

/-- C2 counterexample: the part_001 revision performs no slot validation at
all — a request whose slot string "not-a-date" is not a parseable date (the
`p0` stand-in parser returns `none` on it, as `new Date` yields an invalid
date) is nevertheless accepted with 201 and persisted, not rejected with the
400 invalid-slot error the claim requires. -/
theorem C2_counterexample :
    post001Reservations [] ⟨"not-a-date", "Nom", "Prenom", "el@x.fr", "0601", none⟩ =
      (Out001.created ⟨"not-a-date", "Nom", "Prenom", "el@x.fr", "0601", none, "confirmée"⟩,
       [⟨"not-a-date", "Nom", "Prenom", "el@x.fr", "0601", none, "confirmée"⟩]) ∧
    p0 "not-a-date" = none :=
  ⟨rfl, rfl⟩

/-- C4: every rejection of the admission pipeline leaves the reservation
store completely unchanged — no record is inserted, modified or deleted.
Stated for the part_004, part_000 and part_002 creation handlers. -/
theorem C4_rejection_preserves_store :
    (∀ (parse : String → Option Int) (users : List User004) (rs : List Resa) (req : ResaReq),
      (∀ r, (post004Reservations parse users rs req).1 ≠ Out004.created r) →
      (post004Reservations parse users rs req).2 = rs) ∧
    (∀ (parse : String → Option Int) (users : List LUser) (rs : List Resa) (req : ResaReq),
      (∀ r, (post000Reservations parse users rs req).1 ≠ Out000.created r) →
      (post000Reservations parse users rs req).2 = rs) ∧
    (∀ (parse : String → Option Int) (rs : List Resa002) (req : ResaReq),
      (∀ r, (post002Reservations parse rs req).1 ≠ Out002.created r) →
      (post002Reservations parse rs req).2 = rs) := by
  refine ⟨fun parse users rs req h => ?_, fun parse users rs req h => ?_,
    fun parse rs req h => ?_⟩
  · rcases post004_cases parse users rs req with h2 | ⟨r, h2⟩
    · exact h2
    · exact absurd (by rw [h2]) (h r)
  · rcases post000_cases parse users rs req with h2 | ⟨r, h2⟩
    · exact h2
    · exact absurd (by rw [h2]) (h r)
  · rcases post002_cases parse rs req with h2 | ⟨r, h2⟩
    · exact h2
    · exact absurd (by rw [h2]) (h r)

/-- C4 witness: a concrete rejected request (missing fields) leaves a concrete
store unchanged. -/
theorem C4_witness :
    (post004Reservations p0 [] [] ⟨"", "", "", "", "", none⟩).2 = [] :=
  C4_rejection_preserves_store.1 p0 [] [] ⟨"", "", "", "", "", none⟩
    (fun _ h => Out004.noConfusion h)

/-- C2 witness for the amended statement at a concrete input: a present but
unparseable slot is rejected by the part_002 handler with the invalid-date
error. -/
theorem C2_witness :
    (post002Reservations p0 [] ⟨"not-a-date", "N", "P", "el@x.fr", "06", none⟩).1 =
      Out002.invalidDate :=
  (C2_invalid_slot_iff.1 p0 [] ⟨"not-a-date", "N", "P", "el@x.fr", "06", none⟩).mpr
    ⟨by decide, rfl⟩

/-- After erasing the first reservation matching an id from a store whose ids
are pairwise distinct, no reservation with that id remains. -/
theorem find?_eraseP_eq_none (rs : List StoredResa) (id : Nat)
    (h : (rs.map StoredResa.id).Nodup) :
    (rs.eraseP (fun r => r.id == id)).find? (fun r => r.id == id) = none := by
  induction rs with
  | nil => rfl
  | cons x xs ih =>
    simp only [List.map_cons, List.nodup_cons] at h
    by_cases hx : x.id = id
    · rw [List.eraseP_cons_of_pos (by simp [hx])]
      rw [List.find?_eq_none]
      intro r hr hc
      simp only [beq_iff_eq] at hc
      exact h.1 (by rw [hx, ← hc]; exact List.mem_map_of_mem StoredResa.id hr)
    · rw [List.eraseP_cons_of_neg (by simp [hx])]
      rw [List.find?_cons_of_neg _ (by simp [hx])]
      exact ih h.2

/-- C7 (amended): in the revision that looks the reservation up before
deleting (first src/server.js revision), deleting the same id twice yields
404 on the second call, and deleting an id absent from the store yields 404
with the store untouched. -/
theorem C7_delete_twice_404 :
    (∀ (rs : List StoredResa) (id : Nat), (rs.map StoredResa.id).Nodup →
      (deleteReservationServer (deleteReservationServer rs id).2 id).1 = DelOut.notFound) ∧
    (∀ (rs : List StoredResa) (id : Nat), rs.find? (fun r => r.id == id) = none →
      deleteReservationServer rs id = (DelOut.notFound, rs)) ∧
    statusOfDel DelOut.notFound = 404 := by
  refine ⟨?_, ?_, rfl⟩
  · intro rs id h
    cases hf : rs.find? (fun r => r.id == id) with
    | none =>
      have h1 : deleteReservationServer rs id = (.notFound, rs) := by
        unfold deleteReservationServer
        rw [hf]
      rw [h1]
      unfold deleteReservationServer
      rw [hf]
    | some r =>
      have h1 : deleteReservationServer rs id =
          (.deleted, rs.eraseP (fun r => r.id == id)) := by
        unfold deleteReservationServer
        rw [hf]
      rw [h1]
      unfold deleteReservationServer
      rw [find?_eraseP_eq_none rs id h]
  · intro rs id h
    unfold deleteReservationServer
    rw [h]

/-- C7 counterexample: the part_001 revision deletes with `findByIdAndDelete`
and answers 200 success unconditionally — deleting an id that is not in the
store (here: id 5 in an empty store, exactly the state after a first
successful deletion) still returns the 200 success outcome, not the 404 the
claim requires. -/
theorem C7_counterexample :
    deleteReservation001 [] 5 = (DelOut.deleted, []) ∧
    statusOfDel DelOut.deleted = 200 ∧ DelOut.deleted ≠ DelOut.notFound := by
  refine ⟨rfl, rfl, by decide⟩

/-- C7 witness: concrete double deletion of reservation 1 and deletion of an
absent id 9. -/
theorem C7_witness :
    (deleteReservationServer
      (deleteReservationServer
        [⟨1, "2025-01-06T10:00:00.000Z", "N", "P", "el@x.fr", "06", none,
          "demande_en_cours"⟩] 1).2 1).1 = DelOut.notFound ∧
    deleteReservationServer [] 9 = (DelOut.notFound, []) :=
  ⟨C7_delete_twice_404.1
      [⟨1, "2025-01-06T10:00:00.000Z", "N", "P", "el@x.fr", "06", none,
        "demande_en_cours"⟩] 1 (by decide),
   C7_delete_twice_404.2.1 [] 9 rfl⟩

/-- C8 (amended): in the revisions where instructors are users
(src/unnamed/part_000), deleting a user with role "moniteur" succeeds and
detaches rather than deletes: the store afterwards holds exactly the original
reservations, each with every field unchanged except that a `moniteur`
reference to the deleted user is set to `none`. -/
theorem C8_delete_moniteur_detaches (users : List LUser) (rs : List StoredResa)
    (uid : Nat) (u : LUser)
    (hfind : users.find? (fun x => x.id == uid) = some u)
    (hrole : u.role = "moniteur") :
    deleteUser000 users rs uid =
      (UserDelOut.deleted, users.eraseP (fun x => x.id == uid),
       rs.map fun r => if r.moniteur = some uid then { r with moniteur := none } else r) ∧
    (rs.map fun r => if r.moniteur = some uid then { r with moniteur := none } else r).length
      = rs.length ∧
    (∀ r ∈ rs, r.moniteur ≠ some uid →
      r ∈ rs.map fun r => if r.moniteur = some uid then { r with moniteur := none } else r) ∧
    (∀ r ∈ rs, r.moniteur = some uid →
      { r with moniteur := none } ∈
        rs.map fun r => if r.moniteur = some uid then { r with moniteur := none } else r) := by
  refine ⟨?_, by simp, ?_, ?_⟩
  · unfold deleteUser000
    rw [hfind]
    dsimp only
    rw [if_pos hrole]
  · intro r hr hnm
    exact List.mem_map.2 ⟨r, hr, by simp [hnm]⟩
  · intro r hr hm
    exact List.mem_map.2 ⟨r, hr, by simp [hm]⟩

/-- C8 counterexample: in the first src/server.js revision, deleting a
moniteur who is referenced by a reservation does not succeed and does not
detach — the handler refuses with 400 and both collections are left exactly
as they were. -/
theorem C8_counterexample :
    deleteMoniteurServer [⟨7, "Martin", "M1", true⟩]
      [⟨1, "2025-01-06T10:00:00.000Z", "el@x.fr", "M1", some 7, "demande_en_cours"⟩] 7 =
      (MonDelOut.hasReservations, [⟨7, "Martin", "M1", true⟩],
       [⟨1, "2025-01-06T10:00:00.000Z", "el@x.fr", "M1", some 7, "demande_en_cours"⟩]) ∧
    MonDelOut.hasReservations ≠ MonDelOut.deleted :=
  ⟨rfl, by decide⟩

/-- C8 witness: deleting moniteur 7, referenced by two active reservations,
detaches both and keeps them persisted. -/
theorem C8_witness :
    deleteUser000 [⟨7, "Martin", "Paul", "m@gp.fr", "pw", "moniteur", "0600"⟩]
      [⟨1, "2025-01-06T10:00:00.000Z", "A", "B", "a@x.fr", "06", some 7, "demande_en_cours"⟩,
       ⟨2, "2025-01-06T23:30:00.000Z", "C", "D", "c@x.fr", "07", some 7, "demande_en_cours"⟩]
      7 =
      (UserDelOut.deleted, [],
       [⟨1, "2025-01-06T10:00:00.000Z", "A", "B", "a@x.fr", "06", none, "demande_en_cours"⟩,
        ⟨2, "2025-01-06T23:30:00.000Z", "C", "D", "c@x.fr", "07", none,
          "demande_en_cours"⟩]) := by
  have h := (C8_delete_moniteur_detaches
    [⟨7, "Martin", "Paul", "m@gp.fr", "pw", "moniteur", "0600"⟩]
    [⟨1, "2025-01-06T10:00:00.000Z", "A", "B", "a@x.fr", "06", some 7, "demande_en_cours"⟩,
     ⟨2, "2025-01-06T23:30:00.000Z", "C", "D", "c@x.fr", "07", some 7, "demande_en_cours"⟩]
    7 ⟨7, "Martin", "Paul", "m@gp.fr", "pw", "moniteur", "0600"⟩ rfl rfl).1
  rw [h]
  rfl

/-- C10: on every successful login the response body holds exactly the fields
email, nom, prenom, role, tel of the matched user — never the stored
password — and the lookup matches the submitted email lowercased together
with the submitted password. -/
theorem C10_login_profile (users : List LUser) (email password : String)
    (body : List (String × String))
    (h : loginHandler users email password = LoginOut.ok body) :
    ∃ u : LUser,
      users.find? (fun v => v.email == jsToLowerCase email && v.password == password) = some u ∧
      u.email = jsToLowerCase email ∧ u.password = password ∧
      body = [("email", u.email), ("nom", u.nom), ("prenom", u.prenom), ("role", u.role),
        ("tel", u.tel)] ∧
      body.map Prod.fst = ["email", "nom", "prenom", "role", "tel"] ∧
      "password" ∉ body.map Prod.fst := by
  unfold loginHandler at h
  split at h
  · exact absurd h (by simp)
  · split at h
    · exact absurd h (by simp)
    · rename_i u hfind
      have hp := List.find?_some hfind
      simp only [Bool.and_eq_true, beq_iff_eq] at hp
      simp only [LoginOut.ok.injEq] at h
      subst h
      exact ⟨u, hfind, hp.1, hp.2, rfl, rfl, by simp⟩

/-- C10 witness: a concrete successful login with a mixed-case submitted
email. -/
theorem C10_witness :
    ∃ u : LUser,
      [(⟨1, "Doe", "Jo", "admin@gp.fr", "pw123", "admin", "0600"⟩ : LUser)].find?
        (fun v => v.email == jsToLowerCase "Admin@GP.fr" && v.password == "pw123") = some u ∧
      u.email = jsToLowerCase "Admin@GP.fr" ∧ u.password = "pw123" ∧
      [("email", "admin@gp.fr"), ("nom", "Doe"), ("prenom", "Jo"), ("role", "admin"),
        ("tel", "0600")] =
        [("email", u.email), ("nom", u.nom), ("prenom", u.prenom), ("role", u.role),
          ("tel", u.tel)] ∧
      [("email", "admin@gp.fr"), ("nom", "Doe"), ("prenom", "Jo"), ("role", "admin"),
        ("tel", "0600")].map Prod.fst = ["email", "nom", "prenom", "role", "tel"] ∧
      "password" ∉ [("email", "admin@gp.fr"), ("nom", "Doe"), ("prenom", "Jo"),
        ("role", "admin"), ("tel", "0600")].map Prod.fst :=
  C10_login_profile [⟨1, "Doe", "Jo", "admin@gp.fr", "pw123", "admin", "0600"⟩]
    "Admin@GP.fr" "pw123"
    [("email", "admin@gp.fr"), ("nom", "Doe"), ("prenom", "Jo"), ("role", "admin"),
      ("tel", "0600")] (by decide)

/-- The reserved-id list built by `getAvailableMoniteurs` contains an id
exactly when some stored reservation at the slot references it. -/
theorem reservedIds_mem (rs : List Resa) (iso : String) (i : Nat) :
    ((rs.filter fun r => r.slot == iso).filterMap fun r => r.moniteur).contains i = true ↔
      ∃ r ∈ rs, r.slot = iso ∧ r.moniteur = some i := by
  rw [List.contains_iff_exists_mem_beq]
  constructor
  · rintro ⟨b, hb, hib⟩
    have hib2 : i = b := by simpa using hib
    subst hib2
    simp only [List.mem_filterMap, List.mem_filter, beq_iff_eq] at hb
    obtain ⟨r, ⟨hr, hslot⟩, hmon⟩ := hb
    exact ⟨r, hr, hslot, hmon⟩
  · rintro ⟨r, hr, hslot, hmon⟩
    exact ⟨i, List.mem_filterMap.2 ⟨r, List.mem_filter.2 ⟨hr, by simp [hslot]⟩, hmon⟩, by simp⟩

/-- C5: for a creation request with no instructor named, the engine computes
exactly the set of moniteurs with no existing reservation at the normalized
slot (in store order); if that set is empty the request is rejected with the
409 no-instructor-available error, and otherwise its first element is
assigned to the created reservation. -/
theorem C5_auto_assignment :
    (∀ (users : List LUser) (rs : List Resa) (iso : String) (u : LUser),
      u ∈ getAvailableMoniteurs users rs iso ↔
        u ∈ users ∧ u.role = "moniteur" ∧ ¬ ∃ r ∈ rs, r.slot = iso ∧ r.moniteur = some u.id) ∧
    (∀ (parse : String → Option Int) (users : List LUser) (rs : List Resa) (req : ResaReq)
        (t : Int), req.slot ≠ "" → parse req.slot = some t → req.moniteurId = none →
      getAvailableMoniteurs users rs (jsISO t) = [] →
      post000Reservations parse users rs req = (Out000.noInstructorAvailable, rs)) ∧
    (∀ (parse : String → Option Int) (users : List LUser) (rs : List Resa) (req : ResaReq)
        (t : Int) (m : LUser) (ms : List LUser),
      req.slot ≠ "" → parse req.slot = some t → req.moniteurId = none →
      getAvailableMoniteurs users rs (jsISO t) = m :: ms →
      post000Reservations parse users rs req =
        (Out000.created ⟨jsISO t, req.nom, req.prenom, req.email, req.tel, some m.id,
          "demande_en_cours"⟩,
         rs ++ [⟨jsISO t, req.nom, req.prenom, req.email, req.tel, some m.id,
           "demande_en_cours"⟩])) ∧
    statusOf000 Out000.noInstructorAvailable = 409 := by
  refine ⟨?_, ?_, ?_, rfl⟩
  · intro users rs iso u
    unfold getAvailableMoniteurs
    simp only [List.mem_filter, beq_iff_eq, Bool.not_eq_true']
    constructor
    · rintro ⟨⟨hu, hrole⟩, hc⟩
      refine ⟨hu, hrole, fun hex => ?_⟩
      exact absurd ((reservedIds_mem rs iso u.id).mpr hex) (by rw [hc]; exact Bool.false_ne_true)
    · rintro ⟨hu, hrole, hnot⟩
      refine ⟨⟨hu, by simp [hrole]⟩, ?_⟩
      cases hb : ((rs.filter fun r => r.slot == iso).filterMap fun r => r.moniteur).contains u.id
      · rfl
      · exact absurd ((reservedIds_mem rs iso u.id).mp hb) hnot
  · intro parse users rs req t hslot hparse hmid hempty
    unfold post000Reservations
    rw [if_neg hslot, hparse]
    dsimp only
    rw [hmid, hempty]
  · intro parse users rs req t m ms hslot hparse hmid havail
    unfold post000Reservations
    rw [if_neg hslot, hparse]
    dsimp only
    rw [hmid, havail]

/-- C5 witness: with no moniteur in the directory the request is rejected
with 409; with one free moniteur (id 3) it is assigned to the created
reservation. -/
theorem C5_witness :
    post000Reservations p0 [] [] ⟨"2025-01-06T10:00:00.000Z", "A", "B", "a@x.fr", "06", none⟩ =
      (Out000.noInstructorAvailable, []) ∧
    post000Reservations p0 [⟨3, "Martin", "Paul", "m@gp.fr", "pw", "moniteur", "06"⟩] []
      ⟨"2025-01-06T10:00:00.000Z", "A", "B", "a@x.fr", "06", none⟩ =
      (Out000.created ⟨jsISO 1736157600000, "A", "B", "a@x.fr", "06", some 3,
        "demande_en_cours"⟩,
       [⟨jsISO 1736157600000, "A", "B", "a@x.fr", "06", some 3, "demande_en_cours"⟩]) :=
  ⟨C5_auto_assignment.2.1 p0 [] [] ⟨"2025-01-06T10:00:00.000Z", "A", "B", "a@x.fr", "06", none⟩
      1736157600000 (by decide) rfl rfl rfl,
   C5_auto_assignment.2.2.1 p0 [⟨3, "Martin", "Paul", "m@gp.fr", "pw", "moniteur", "06"⟩] []
      ⟨"2025-01-06T10:00:00.000Z", "A", "B", "a@x.fr", "06", none⟩ 1736157600000
      ⟨3, "Martin", "Paul", "m@gp.fr", "pw", "moniteur", "06"⟩ [] (by decide) rfl rfl
      (by decide)⟩

/-- C1 (amended): once a request naming an instructor has passed instructor
resolution, the role check and the Paris availability check, it is rejected
with 409 SlotAlreadyBooked — and nothing is persisted — exactly when the
store holds any reservation at the same normalized slot with the same
instructor; in particular, after a successful creation, a second request for
the same slot and instructor (any student) against the unchanged user
directory is rejected with 409. -/
theorem C1_slot_conflict :
    (∀ (parse : String → Option Int) (users : List User004) (rs : List Resa) (req : ResaReq)
        (t : Int) (mid : Nat) (m : User004),
      req.slot ≠ "" → req.moniteurId = some mid → parse req.slot = some t →
      users.find? (fun u => u.id == mid) = some m → m.role = "moniteur" →
      ((m.disponibilites.lookup (extraireJourEtHeure t).1).getD []).contains
        (extraireJourEtHeure t).2 = true →
      conflictExists rs (jsISO t) mid = true →
      post004Reservations parse users rs req = (Out004.slotAlreadyBooked, rs)) ∧
    (∀ (rs : List Resa) (iso : String) (mid : Nat),
      conflictExists rs iso mid = true ↔ ∃ r ∈ rs, r.slot = iso ∧ r.moniteur = some mid) ∧
    (∀ (parse : String → Option Int) (users : List User004) (rs : List Resa)
        (req1 req2 : ResaReq) (r : Resa) (rs2 : List Resa),
      post004Reservations parse users rs req1 = (Out004.created r, rs2) →
      req2.slot = req1.slot → req2.moniteurId = req1.moniteurId →
      post004Reservations parse users rs2 req2 = (Out004.slotAlreadyBooked, rs2)) ∧
    statusOf004 Out004.slotAlreadyBooked = 409 := by
  have hconflict : ∀ (parse : String → Option Int) (users : List User004) (rs : List Resa)
      (req : ResaReq) (t : Int) (mid : Nat) (m : User004),
      req.slot ≠ "" → req.moniteurId = some mid → parse req.slot = some t →
      users.find? (fun u => u.id == mid) = some m → m.role = "moniteur" →
      ((m.disponibilites.lookup (extraireJourEtHeure t).1).getD []).contains
        (extraireJourEtHeure t).2 = true →
      conflictExists rs (jsISO t) mid = true →
      post004Reservations parse users rs req = (Out004.slotAlreadyBooked, rs) := by
    intro parse users rs req t mid m hslot hmid hparse hfind hrole havail hconf
    rw [post004_reduce parse users rs req t mid m hslot hmid hparse hfind hrole]
    rw [if_neg (by rw [havail]; simp), if_pos hconf]
  refine ⟨hconflict, ?_, ?_, rfl⟩
  · intro rs iso mid
    constructor
    · intro h
      simp only [conflictExists, List.any_eq_true, Bool.and_eq_true, beq_iff_eq] at h
      obtain ⟨r, hr, hs, hm⟩ := h
      exact ⟨r, hr, hs, hm⟩
    · rintro ⟨r, hr, hs, hm⟩
      simp only [conflictExists, List.any_eq_true, Bool.and_eq_true, beq_iff_eq]
      exact ⟨r, hr, hs, hm⟩
  · intro parse users rs req1 req2 r rs2 h hs2 hm2
    obtain ⟨hslot1, t, mid, m, hmid, hparse, hfind, hrole, havail, hconf, hdup, hr, hrs⟩ :=
      post004_created_inv parse users rs req1 r rs2 h
    refine hconflict parse users rs2 req2 t mid m ?_ ?_ ?_ hfind hrole havail ?_
    · rw [hs2]; exact hslot1
    · rw [hm2]; exact hmid
    · rw [hs2]; exact hparse
    · rw [hrs, hr]
      simp [conflictExists, List.any_append]

/-- C1 counterexample: in part_004 the availability check precedes the
double-booking check, so a request for a slot and instructor that already
carry a non-cancelled reservation is rejected with the 400
outside-availability error — not with 409 SlotAlreadyBooked as the claim
states — when the instructor's schedule no longer covers that hour (here: an
empty schedule). -/
theorem C1_counterexample :
    conflictExists [⟨"2025-01-06T10:00:00.000Z", "A", "B", "a@x.fr", "06", some 1,
      "demande_en_cours"⟩] (jsISO 1736157600000) 1 = true ∧
    "demande_en_cours" ≠ "annulée" ∧
    p0 "2025-01-06T10:00:00.000Z" = some 1736157600000 ∧
    post004Reservations p0 [⟨1, "Martin", "Paul", "m@gp.fr", "pw", "moniteur", "06", []⟩]
      [⟨"2025-01-06T10:00:00.000Z", "A", "B", "a@x.fr", "06", some 1, "demande_en_cours"⟩]
      ⟨"2025-01-06T10:00:00.000Z", "C", "D", "c@x.fr", "07", some 1⟩ =
      (Out004.outsideAvailability "lundi" "11h",
       [⟨"2025-01-06T10:00:00.000Z", "A", "B", "a@x.fr", "06", some 1, "demande_en_cours"⟩]) ∧
    Out004.outsideAvailability "lundi" "11h" ≠ Out004.slotAlreadyBooked ∧
    statusOf004 (Out004.outsideAvailability "lundi" "11h") = 400 := by
  refine ⟨by decide, by decide, rfl, by decide, by decide, rfl⟩

/-- C1 witness: a concrete successful creation for Monday 11h Paris with
moniteur 1, followed by an identical slot/instructor request by a different
student, which is rejected with 409 SlotAlreadyBooked. -/
theorem C1_witness :
    post004Reservations p0
      [⟨1, "Martin", "Paul", "m@gp.fr", "pw", "moniteur", "06", [("lundi", ["11h"])]⟩]
      [⟨"2025-01-06T10:00:00.000Z", "A", "B", "a@x.fr", "06", some 1, "demande_en_cours"⟩]
      ⟨"2025-01-06T10:00:00.000Z", "C", "D", "c@x.fr", "07", some 1⟩ =
      (Out004.slotAlreadyBooked,
       [⟨"2025-01-06T10:00:00.000Z", "A", "B", "a@x.fr", "06", some 1, "demande_en_cours"⟩]) :=
  C1_slot_conflict.2.2.1 p0
    [⟨1, "Martin", "Paul", "m@gp.fr", "pw", "moniteur", "06", [("lundi", ["11h"])]⟩] []
    ⟨"2025-01-06T10:00:00.000Z", "A", "B", "a@x.fr", "06", some 1⟩
    ⟨"2025-01-06T10:00:00.000Z", "C", "D", "c@x.fr", "07", some 1⟩
    ⟨"2025-01-06T10:00:00.000Z", "A", "B", "a@x.fr", "06", some 1, "demande_en_cours"⟩
    [⟨"2025-01-06T10:00:00.000Z", "A", "B", "a@x.fr", "06", some 1, "demande_en_cours"⟩]
    (by decide) rfl rfl

/-- C3: for a request that reaches the availability check, the part_004
handler rejects with the outside-availability error exactly when the
instructor's schedule entry for the slot's weekday, derived in Europe/Paris
local time by `extraireJourEtHeure`, does not list the derived hour — and
that derivation is the Paris one, not UTC: at 2025-01-06T23:30Z the code
derives Tuesday 0h (Paris) where UTC would give Monday 23h. -/
theorem C3_availability_paris :
    (∀ (parse : String → Option Int) (users : List User004) (rs : List Resa) (req : ResaReq)
        (t : Int) (mid : Nat) (m : User004),
      req.slot ≠ "" → req.moniteurId = some mid → parse req.slot = some t →
      users.find? (fun u => u.id == mid) = some m → m.role = "moniteur" →
      ((post004Reservations parse users rs req).1 =
          Out004.outsideAvailability (extraireJourEtHeure t).1 (extraireJourEtHeure t).2 ↔
        ((m.disponibilites.lookup (extraireJourEtHeure t).1).getD []).contains
          (extraireJourEtHeure t).2 = false)) ∧
    extraireJourEtHeure 1736206200000 = ("mardi", "0h") ∧
    utcJourEtHeure 1736206200000 = ("lundi", "23h") ∧
    extraireJourEtHeure 1736206200000 ≠ utcJourEtHeure 1736206200000 := by
  refine ⟨?_, by decide, by decide, by decide⟩
  intro parse users rs req t mid m hslot hmid hparse hfind hrole
  rw [post004_reduce parse users rs req t mid m hslot hmid hparse hfind hrole]
  by_cases hc : ((m.disponibilites.lookup (extraireJourEtHeure t).1).getD []).contains
      (extraireJourEtHeure t).2 = false
  · rw [if_pos hc]
    exact iff_of_true rfl hc
  · rw [if_neg hc]
    simp only [hc, iff_false]
    split
    · simp
    · split
      · simp
      · simp

/-- C3 witness: moniteur 1 works Monday 11h Paris; the 10:00 UTC January slot
(11h Paris, Monday) passes the availability check, so the outcome is not the
outside-availability rejection. -/
theorem C3_witness :
    (post004Reservations p0
        [⟨1, "Martin", "Paul", "m@gp.fr", "pw", "moniteur", "06", [("lundi", ["11h"])]⟩] []
        ⟨"2025-01-06T10:00:00.000Z", "C", "D", "c@x.fr", "07", some 1⟩).1 =
      Out004.outsideAvailability (extraireJourEtHeure 1736157600000).1
        (extraireJourEtHeure 1736157600000).2 ↔
      ((([("lundi", ["11h"])] : List (String × List String)).lookup
        (extraireJourEtHeure 1736157600000).1).getD []).contains
        (extraireJourEtHeure 1736157600000).2 = false :=
  C3_availability_paris.1 p0
    [⟨1, "Martin", "Paul", "m@gp.fr", "pw", "moniteur", "06", [("lundi", ["11h"])]⟩] []
    ⟨"2025-01-06T10:00:00.000Z", "C", "D", "c@x.fr", "07", some 1⟩ 1736157600000 1
    ⟨1, "Martin", "Paul", "m@gp.fr", "pw", "moniteur", "06", [("lundi", ["11h"])]⟩
    (by decide) rfl rfl rfl rfl

/-- C6 (amended): a creation request naming an instructor id that resolves to
no user is rejected with 404 instructor-not-found and nothing is persisted;
an id resolving to an existing user whose role is not "moniteur" is rejected
with the 400 not-a-moniteur error — not the 404 of the claim — again with
nothing persisted. -/
theorem C6_instructor_resolution :
    (∀ (parse : String → Option Int) (users : List User004) (rs : List Resa) (req : ResaReq)
        (t : Int) (mid : Nat),
      req.slot ≠ "" → req.moniteurId = some mid → parse req.slot = some t →
      users.find? (fun u => u.id == mid) = none →
      post004Reservations parse users rs req = (Out004.instructorNotFound, rs)) ∧
    (∀ (parse : String → Option Int) (users : List User004) (rs : List Resa) (req : ResaReq)
        (t : Int) (mid : Nat) (m : User004),
      req.slot ≠ "" → req.moniteurId = some mid → parse req.slot = some t →
      users.find? (fun u => u.id == mid) = some m → m.role ≠ "moniteur" →
      post004Reservations parse users rs req = (Out004.notAMoniteur, rs)) ∧
    statusOf004 Out004.instructorNotFound = 404 ∧
    statusOf004 Out004.notAMoniteur = 400 := by
  refine ⟨?_, ?_, rfl, rfl⟩
  · intro parse users rs req t mid hslot hmid hparse hfind
    exact post004_notFound_case parse users rs req t mid hslot hmid hparse hfind
  · intro parse users rs req t mid m hslot hmid hparse hfind hrole
    exact post004_notMoniteur_case parse users rs req t mid m hslot hmid hparse hfind hrole

/-- C6 counterexample: a request naming an existing user whose role is
"eleve" is rejected with the 400 not-a-moniteur error, not with the 404
instructor-not-found rejection the claim demands for this case. -/
theorem C6_counterexample :
    post004Reservations p0 [⟨5, "E", "F", "e@gp.fr", "pw", "eleve", "06", []⟩] []
      ⟨"2025-01-06T10:00:00.000Z", "A", "B", "a@x.fr", "06", some 5⟩ =
      (Out004.notAMoniteur, []) ∧
    Out004.notAMoniteur ≠ Out004.instructorNotFound ∧
    statusOf004 Out004.notAMoniteur ≠ statusOf004 Out004.instructorNotFound := by
  refine ⟨by decide, by decide, by decide⟩

/-- C6 witness: an unknown id 9 is rejected 404 with the store untouched; the
existing non-moniteur user 5 is rejected with the 400 not-a-moniteur error. -/
theorem C6_witness :
    post004Reservations p0 [⟨5, "E", "F", "e@gp.fr", "pw", "eleve", "06", []⟩] []
      ⟨"2025-01-06T10:00:00.000Z", "A", "B", "a@x.fr", "06", some 9⟩ =
      (Out004.instructorNotFound, []) ∧
    post004Reservations p0 [⟨5, "E", "F", "e@gp.fr", "pw", "eleve", "06", []⟩] []
      ⟨"2025-01-06T10:00:00.000Z", "A", "B", "a@x.fr", "06", some 5⟩ =
      (Out004.notAMoniteur, []) :=
  ⟨C6_instructor_resolution.1 p0 [⟨5, "E", "F", "e@gp.fr", "pw", "eleve", "06", []⟩] []
      ⟨"2025-01-06T10:00:00.000Z", "A", "B", "a@x.fr", "06", some 9⟩ 1736157600000 9
      (by decide) rfl rfl rfl,
   C6_instructor_resolution.2.1 p0 [⟨5, "E", "F", "e@gp.fr", "pw", "eleve", "06", []⟩] []
      ⟨"2025-01-06T10:00:00.000Z", "A", "B", "a@x.fr", "06", some 5⟩ 1736157600000 5
      ⟨5, "E", "F", "e@gp.fr", "pw", "eleve", "06", []⟩ (by decide) rfl rfl rfl (by decide)⟩

/-- `setRL` stores the written entry under its key. -/
theorem lookup_setRL_self (st : RLState) (k : String) (v : RateEntry) :
    (setRL st k v).lookup k = some v := by
  induction st with
  | nil => simp [setRL, List.lookup]
  | cons x rest ih =>
    obtain ⟨k', v'⟩ := x
    by_cases h : k' = k
    · subst h
      simp [setRL, List.lookup]
    · rw [setRL, if_neg h]
      have hb : (k == k') = false := by simp [Ne.symm h]
      simp [List.lookup, hb, ih]

/-- `setRL` leaves every other key's entry unchanged. -/
theorem lookup_setRL_ne (st : RLState) (k : String) (v : RateEntry) (b : String)
    (hbk : b ≠ k) : (setRL st k v).lookup b = st.lookup b := by
  induction st with
  | nil =>
    have hb : (b == k) = false := by simp [hbk]
    simp [setRL, List.lookup, hb]
  | cons x rest ih =>
    obtain ⟨k', v'⟩ := x
    by_cases h : k' = k
    · subst h
      have hb : (b == k') = false := by simp [hbk]
      simp [setRL, List.lookup, hb]
    · rw [setRL, if_neg h]
      cases hb : b == k' <;> simp [List.lookup, hb, ih]

/-- A `checkRateLimit` call that finds a full counter inside the window is
denied and leaves the limiter state untouched. -/
theorem checkRateLimit_denied (st : RLState) (a : String) (now : Int) (l : RateEntry)
    (hl : st.lookup a = some l) (hle : ¬ now > l.resetTime) (hc : ¬ l.count < 50) :
    checkRateLimit st a now =
      (⟨false, 0, Int.fdiv (l.resetTime - now + 59999) 60000⟩, st) := by
  unfold checkRateLimit
  rw [hl]
  dsimp only
  rw [if_neg hle, if_neg hc]

/-- Bound on admitted sends: from a state whose entry for the admin has count
`c` and reset time `rt`, a run of requests all at or before `rt` admits at
most `50 - c` of them. -/
theorem runRL_le (a : String) (ts : List Int) :
    ∀ (st : RLState) (c : Nat) (rt : Int), st.lookup a = some ⟨c, rt⟩ →
      (∀ t ∈ ts, t ≤ rt) → (runRL st a ts).1 ≤ 50 - c := by
  induction ts with
  | nil =>
    intro st c rt _ _
    simp [runRL]
  | cons t ts ih =>
    intro st c rt hl hts
    unfold runRL
    have ht : ¬ t > rt := by
      have := hts t (by simp)
      omega
    by_cases hc : c < 50
    · have hcrl : checkRateLimit st a t =
          (⟨true, 50 - (c + 1), 0⟩, setRL st a ⟨c + 1, rt⟩) := by
        unfold checkRateLimit
        rw [hl]
        dsimp only
        rw [if_neg ht, if_pos hc]
      rw [hcrl]
      have h2 := ih (setRL st a ⟨c + 1, rt⟩) (c + 1) rt (lookup_setRL_self st a ⟨c + 1, rt⟩)
        (fun x hx => hts x (by simp [hx]))
      show 1 + (runRL (setRL st a ⟨c + 1, rt⟩) a ts).1 ≤ 50 - c
      omega
    · rw [checkRateLimit_denied st a t ⟨c, rt⟩ hl ht hc]
      have h2 := ih st c rt hl (fun x hx => hts x (by simp [hx]))
      show 0 + (runRL st a ts).1 ≤ 50 - c
      omega

/-- C9: the in-memory email rate limiter admits at most 50 sends per admin
within the one-hour window opened by the admin's first send; a further
request inside the window with a full counter is denied (and, through the
send-email handler, answered 429 with no email sent, no log written and the
limiter state unchanged); a request strictly after the reset time opens a
fresh window with count 1; and a call for one admin never touches another
admin's entry. -/
theorem C9_rate_limiter :
    (∀ (st : RLState) (a : String) (t0 : Int) (ts : List Int), st.lookup a = none →
      (∀ t ∈ ts, t ≤ t0 + RATE_WINDOW) → (runRL st a (t0 :: ts)).1 ≤ 50) ∧
    (∀ (st : RLState) (a : String) (now rt : Int) (c : Nat),
      st.lookup a = some ⟨c, rt⟩ → now ≤ rt → 50 ≤ c →
      checkRateLimit st a now =
        (⟨false, 0, Int.fdiv (rt - now + 59999) 60000⟩, st)) ∧
    (∀ (st : RLState) (a : String) (now rt : Int) (c : Nat),
      st.lookup a = some ⟨c, rt⟩ → now > rt →
      checkRateLimit st a now = (⟨true, 49, 0⟩, setRL st a ⟨1, now + RATE_WINDOW⟩)) ∧
    (∀ (st : RLState) (a b : String) (now : Int), b ≠ a →
      (checkRateLimit st a now).2.lookup b = st.lookup b) ∧
    (∀ (users : List User004) (logs : List EmailLogRec) (rl : RLState) (req : EmailReq)
        (now : Int) (admin : User004) (c : Nat) (rt : Int),
      req.adminEmail ≠ "" →
      users.find? (fun u => u.email == jsToLowerCase req.adminEmail) = some admin →
      admin.role = "admin" → req.subject ≠ "" → req.message ≠ "" →
      rl.lookup admin.email = some ⟨c, rt⟩ → now ≤ rt → 50 ≤ c →
      adminSendEmail users logs rl req now = (SendOut.rateLimited, [], logs, rl)) ∧
    statusOfSend SendOut.rateLimited = 429 := by
  have hdenied : ∀ (st : RLState) (a : String) (now rt : Int) (c : Nat),
      st.lookup a = some ⟨c, rt⟩ → now ≤ rt → 50 ≤ c →
      checkRateLimit st a now =
        (⟨false, 0, Int.fdiv (rt - now + 59999) 60000⟩, st) := by
    intro st a now rt c hl hle hc
    exact checkRateLimit_denied st a now ⟨c, rt⟩ hl (by show ¬ now > rt; omega)
      (by show ¬ c < 50; omega)
  refine ⟨?_, hdenied, ?_, ?_, ?_, rfl⟩
  · intro st a t0 ts hnone hts
    have h1 : checkRateLimit st a t0 =
        (⟨true, 49, 0⟩, setRL st a ⟨1, t0 + RATE_WINDOW⟩) := by
      unfold checkRateLimit
      rw [hnone]
    unfold runRL
    rw [h1]
    have h2 := runRL_le a ts (setRL st a ⟨1, t0 + RATE_WINDOW⟩) 1 (t0 + RATE_WINDOW)
      (lookup_setRL_self st a ⟨1, t0 + RATE_WINDOW⟩) hts
    show 1 + (runRL (setRL st a ⟨1, t0 + RATE_WINDOW⟩) a ts).1 ≤ 50
    omega
  · intro st a now rt c hl hgt
    unfold checkRateLimit
    rw [hl]
    dsimp only
    rw [if_pos hgt]
  · intro st a b now hba
    unfold checkRateLimit
    cases hl : st.lookup a with
    | none =>
      dsimp only
      exact lookup_setRL_ne st a _ b hba
    | some l =>
      dsimp only
      split
      · exact lookup_setRL_ne st a _ b hba
      · split
        · exact lookup_setRL_ne st a _ b hba
        · rfl
  · intro users logs rl req now admin c rt hne hfind hrole hsub hmsg hl hle hc
    unfold adminSendEmail
    rw [if_neg hne, hfind]
    dsimp only
    rw [if_neg (by simp [hrole]), if_neg (by simp [hsub, hmsg])]
    rw [hdenied rl admin.email now rt c hl hle hc]
    rfl

/-- C9 witness: concrete runs — three sends all inside one window stay below
the bound; a full counter inside the window is denied; a send after the reset
time reopens the window; another admin's entry is untouched; and the full
send-email handler answers the denied case with 429, sending nothing and
logging nothing. -/
theorem C9_witness :
    (runRL [] "adm@gp.fr" [0, 1, 2]).1 ≤ 50 ∧
    checkRateLimit [("adm@gp.fr", ⟨50, 100⟩)] "adm@gp.fr" 60 =
      (⟨false, 0, Int.fdiv (100 - 60 + 59999) 60000⟩, [("adm@gp.fr", ⟨50, 100⟩)]) ∧
    checkRateLimit [("adm@gp.fr", ⟨50, 100⟩)] "adm@gp.fr" 101 =
      (⟨true, 49, 0⟩, setRL [("adm@gp.fr", ⟨50, 100⟩)] "adm@gp.fr" ⟨1, 101 + RATE_WINDOW⟩) ∧
    (checkRateLimit [("adm@gp.fr", ⟨50, 100⟩)] "adm@gp.fr" 60).2.lookup "other@gp.fr" =
      ([("adm@gp.fr", (⟨50, 100⟩ : RateEntry))] : RLState).lookup "other@gp.fr" ∧
    adminSendEmail [⟨1, "A", "D", "adm@gp.fr", "pw", "admin", "06", []⟩] []
      [("adm@gp.fr", ⟨50, 100⟩)] ⟨"Adm@GP.fr", "all", "s", "m"⟩ 60 =
      (SendOut.rateLimited, [], [], [("adm@gp.fr", ⟨50, 100⟩)]) :=
  ⟨C9_rate_limiter.1 [] "adm@gp.fr" 0 [1, 2] rfl (by decide),
   C9_rate_limiter.2.1 [("adm@gp.fr", ⟨50, 100⟩)] "adm@gp.fr" 60 100 50 rfl (by decide)
     (by decide),
   C9_rate_limiter.2.2.1 [("adm@gp.fr", ⟨50, 100⟩)] "adm@gp.fr" 101 100 50 rfl (by decide),
   C9_rate_limiter.2.2.2.1 [("adm@gp.fr", ⟨50, 100⟩)] "adm@gp.fr" "other@gp.fr" 60
     (by decide),
   C9_rate_limiter.2.2.2.2.1 [⟨1, "A", "D", "adm@gp.fr", "pw", "admin", "06", []⟩] []
     [("adm@gp.fr", ⟨50, 100⟩)] ⟨"Adm@GP.fr", "all", "s", "m"⟩ 60
     ⟨1, "A", "D", "adm@gp.fr", "pw", "admin", "06", []⟩ 50 100 (by decide) (by decide) rfl
     (by decide) (by decide) rfl (by decide) (by decide)⟩
